import Mathlib

/-!
Shallow embedding of `provisioning/baremetal_pod.go` from the
cluster-baremetal-operator repository: the container/init-container
assembly rules, the cross-cutting proxy and trusted-CA injection pass,
the deployment reconciler (`EnsureMetal3Deployment`) and the rollout
status query (`GetDeploymentState`).

Kubernetes API values are modelled structurally: maps become association
lists, pointers become `Option`, `time.Duration` values become natural
numbers of seconds, and the orchestrator client is an oracle whose
answers (apply / get / delete results) are passed in as explicit inputs.
-/

/-! ## Core Kubernetes value types (the fields this file uses) -/

/-- Source of an environment variable value (`corev1.EnvVarSource`):
only the two variants used by the source file are modelled. -/
inductive EnvVarSource where
  | secretKeyRef (secretName : String) (key : String)
  | fieldRef (fieldPath : String)
deriving DecidableEq, Repr

/-- `corev1.EnvVar`: name, literal value, optional value source. -/
structure EnvVar where
  name : String
  value : String := ""
  valueFrom : Option EnvVarSource := none
deriving DecidableEq, Repr

/-- `corev1.VolumeMount` restricted to the fields the source sets. -/
structure VolumeMount where
  name : String
  mountPath : String
  readOnly : Bool := false
deriving DecidableEq, Repr

/-- `corev1.ContainerPort` restricted to the fields the source sets. -/
structure ContainerPort where
  name : String
  containerPort : Nat
  hostPort : Nat
deriving DecidableEq, Repr

/-- Resource requests (`corev1.ResourceRequirements.Requests`), the cpu and
memory quantity strings passed to `resource.MustParse`. -/
structure ResourceRequests where
  cpu : String
  memory : String
deriving DecidableEq, Repr

/-- `corev1.Container` restricted to the fields the source sets.
`privileged = none` models a container with no SecurityContext. -/
structure Container where
  name : String
  image : String
  command : List String := []
  args : List String := []
  imagePullPolicy : String := ""
  privileged : Option Bool := none
  env : List EnvVar := []
  volumeMounts : List VolumeMount := []
  ports : List ContainerPort := []
  resources : ResourceRequests := { cpu := "", memory := "" }
deriving DecidableEq, Repr

/-! ## Configuration model (`metal3iov1alpha1.ProvisioningSpec` and friends) -/

/-- The provisioning network mode (`Disabled | Managed | Unmanaged`). -/
inductive ProvisioningNetwork where
  | Disabled
  | Managed
  | Unmanaged
deriving DecidableEq, Repr

/-- The four optional live-OS asset URLs of
`PreProvisioningOSDownloadURLs`; an empty string means unset. -/
structure PreProvisioningOSDownloadURLs where
  isoURL : String := ""
  kernelURL : String := ""
  initramfsURL : String := ""
  rootfsURL : String := ""
deriving DecidableEq, Repr

/-- The per-reconcile provisioning configuration snapshot
(`metal3iov1alpha1.ProvisioningSpec`), restricted to the fields read by
the embedded functions.  `coreOSIPAAvailable` carries the "CoreOS image
ships pre-built IPA assets" fact, which the spec describes only as
"a boolean derived from config". -/
structure ProvisioningSpec where
  provisioningNetwork : ProvisioningNetwork
  provisioningIP : String := ""
  provisioningInterface : String := ""
  provisioningDHCPRange : String := ""
  provisioningHTTPPort : String := ""
  provisioningOSDownloadURL : String := ""
  preProvisioningOSDownloadURLs : PreProvisioningOSDownloadURLs := {}
  virtualMediaViaExternalNetwork : Bool := false
  watchAllNamespaces : Bool := false
  coreOSIPAAvailable : Bool := false
deriving DecidableEq, Repr

/-- Detected cluster network stack (v4, v6, or dual). -/
inductive NetworkStack where
  | NetworkStackV4
  | NetworkStackV6
  | NetworkStackDual
deriving DecidableEq, Repr

/-- Image references for the containers this file builds (`Images`). -/
structure Images where
  baremetalOperator : String := ""
  ironic : String := ""
  machineOsDownloader : String := ""
  staticIpManager : String := ""
  ipaDownloader : String := ""
deriving DecidableEq, Repr

/-- `configv1.ProxyStatus`: the resolved proxy URLs; empty means unset. -/
structure ProxyStatus where
  httpProxy : String := ""
  httpsProxy : String := ""
  noProxy : String := ""
deriving DecidableEq, Repr

/-- `configv1.Proxy`, reduced to its status (the only part read here). -/
structure Proxy where
  status : ProxyStatus
deriving DecidableEq, Repr

/-- The `Provisioning` custom resource, reduced to its spec. -/
structure Provisioning where
  spec : ProvisioningSpec
deriving DecidableEq, Repr

/-- The external facts handed to a reconcile (`ProvisioningInfo`),
without the orchestrator client handles (those are modelled as explicit
oracle inputs to the reconciler functions). -/
structure ProvisioningInfo where
  provConfig : Provisioning
  images : Images := {}
  masterMacAddresses : List String := []
  sshKey : String := ""
  networkStack : NetworkStack := .NetworkStackDual
  proxy : Option Proxy := none
  namespaceName : String := ""
deriving DecidableEq, Repr

/-! ## Constants from the source file -/

def metal3AppName : String := "metal3"
def baremetalDeploymentName : String := "metal3"
def baremetalSharedVolume : String := "metal3-shared"
def metal3AuthRootDir : String := "/auth"
def metal3TlsRootDir : String := "/certs"
def ironicCredentialsVolume : String := "metal3-ironic-basic-auth"
def ironicrpcCredentialsVolume : String := "metal3-ironic-rpc-basic-auth"
def inspectorCredentialsVolume : String := "metal3-inspector-basic-auth"
def ironicTlsVolume : String := "metal3-ironic-tls"
def inspectorTlsVolume : String := "metal3-inspector-tls"
def htpasswdEnvVar : String := "HTTP_BASIC_HTPASSWD"
def mariadbPwdEnvVar : String := "MARIADB_PASSWORD"
def ironicInsecureEnvVar : String := "IRONIC_INSECURE"
def inspectorInsecureEnvVar : String := "IRONIC_INSPECTOR_INSECURE"
def ironicCertEnvVar : String := "IRONIC_CACERT_FILE"
def sshKeyEnvVar : String := "IRONIC_RAMDISK_SSH_KEY"
def externalIpEnvVar : String := "IRONIC_EXTERNAL_IP"
def cboLabelName : String := "baremetal.openshift.io/cluster-baremetal-operator"
def cboOwnedAnnotation : String := "baremetal.openshift.io/owned"
def externalTrustBundleConfigMapName : String := "cbo-trusted-ca"
def pullSecretEnvVar : String := "IRONIC_AGENT_PULL_SECRET"

/-- Modelled from the spec: logical environment-variable names and secret
names defined in a configuration source file that is not part of the
provided sources (`baremetal_config.go`); the spec treats them as opaque
identifiers, so only their distinctness matters here. -/
def provisioningIP : String := "PROVISIONING_IP"

def provisioningInterface : String := "PROVISIONING_INTERFACE"
def dhcpRange : String := "DHCP_RANGE"
def httpPort : String := "HTTP_PORT"
def machineImageUrl : String := "RHCOS_IMAGE_URL"
def ipOptions : String := "IP_OPTIONS"
def deployKernelUrl : String := "DEPLOY_KERNEL_URL"
def deployRamdiskUrl : String := "DEPLOY_RAMDISK_URL"
def ironicEndpoint : String := "IRONIC_ENDPOINT"
def ironicInspectorEndpoint : String := "IRONIC_INSPECTOR_ENDPOINT"
def httpPortName : String := "httpd"
def baremetalHttpPort : Nat := 6180
def baremetalSecretName : String := "metal3-mariadb-password"
def baremetalSecretKey : String := "password"
def pullSecretName : String := "pull-secret"
def openshiftConfigSecretKey : String := ".dockerconfigjson"
def ironicSecretName : String := "metal3-ironic-password"
def ironicrpcSecretName : String := "metal3-ironic-rpc-password"
def inspectorSecretName : String := "metal3-ironic-inspector-password"
def tlsSecretName : String := "metal3-ironic-tls"
def ironicHtpasswdKey : String := "htpasswd"
def stateService : String := "metal3-state"

/-- Modelled from the spec: the image cache volume mount (`imageVolumeMount`
is defined in a source file not provided; the spec lists an
"image cache volume" in the volume catalog). -/
def imageVolumeMount : VolumeMount :=
  { name := "metal3-cache", mountPath := "/shared/html/images" }

def sharedVolumeMount : VolumeMount :=
  { name := baremetalSharedVolume, mountPath := "/shared" }

def ironicCredentialsMount : VolumeMount :=
  { name := ironicCredentialsVolume, mountPath := metal3AuthRootDir ++ "/ironic",
    readOnly := true }

def rpcCredentialsMount : VolumeMount :=
  { name := ironicrpcCredentialsVolume, mountPath := metal3AuthRootDir ++ "/ironic-rpc",
    readOnly := true }

def inspectorCredentialsMount : VolumeMount :=
  { name := inspectorCredentialsVolume, mountPath := metal3AuthRootDir ++ "/ironic-inspector",
    readOnly := true }

def ironicTlsMount : VolumeMount :=
  { name := ironicTlsVolume, mountPath := metal3TlsRootDir ++ "/ironic", readOnly := true }

def inspectorTlsMount : VolumeMount :=
  { name := inspectorTlsVolume, mountPath := metal3TlsRootDir ++ "/ironic-inspector",
    readOnly := true }

def mariadbPassword : EnvVar :=
  { name := mariadbPwdEnvVar,
    valueFrom := some (.secretKeyRef baremetalSecretName baremetalSecretKey) }

def pullSecret : EnvVar :=
  { name := pullSecretEnvVar,
    valueFrom := some (.secretKeyRef pullSecretName openshiftConfigSecretKey) }

/-! ## Environment composition -/

/-- Modelled from the spec: `getMetal3DeploymentConfig` (defined in a
configuration source file not provided) maps a logical variable name to an
optional literal value taken from the config; per the spec it returns a
literal from the config when the corresponding field applies, and nothing
otherwise. -/
def getMetal3DeploymentConfig (name : String) (config : ProvisioningSpec) : Option String :=
  if name = provisioningIP then
    (if config.provisioningIP ≠ "" then some config.provisioningIP else none)
  else if name = provisioningInterface then
    (if config.provisioningInterface ≠ "" then some config.provisioningInterface else none)
  else if name = dhcpRange then
    (if config.provisioningDHCPRange ≠ "" then some config.provisioningDHCPRange else none)
  else if name = httpPort then
    (if config.provisioningHTTPPort ≠ "" then some config.provisioningHTTPPort else none)
  else
    none

def buildEnvVar (name : String) (baremetalProvisioningConfig : ProvisioningSpec) : EnvVar :=
  match getMetal3DeploymentConfig name baremetalProvisioningConfig with
  | some value => { name := name, value := value }
  | none =>
    if name = provisioningIP ∧
        baremetalProvisioningConfig.provisioningNetwork = ProvisioningNetwork.Disabled then
      { name := name, valueFrom := some (.fieldRef "status.hostIP") }
    else
      { name := name }

def setIronicHtpasswdHash (name : String) (secretName : String) : EnvVar :=
  { name := name, valueFrom := some (.secretKeyRef secretName ironicHtpasswdKey) }

def setIronicExternalIp (name : String) (config : ProvisioningSpec) : EnvVar :=
  if config.provisioningNetwork ≠ ProvisioningNetwork.Disabled ∧
      config.virtualMediaViaExternalNetwork then
    { name := name, valueFrom := some (.fieldRef "status.hostIP") }
  else
    { name := name }

def getWatchNamespace (config : ProvisioningSpec) : EnvVar :=
  if config.watchAllNamespaces then
    { name := "WATCH_NAMESPACE", value := "" }
  else
    { name := "WATCH_NAMESPACE", valueFrom := some (.fieldRef "metadata.namespace") }

def buildSSHKeyEnvVar (sshKey : String) : EnvVar :=
  { name := sshKeyEnvVar, value := sshKey }

def envWithMasterMacAddresses (envVars : List EnvVar) (macs : List String) : List EnvVar :=
  envVars ++ [{ name := "PROVISIONING_MACS", value := String.intercalate "," macs }]

/-- Modelled from the spec: `getPreProvisioningOSDownloadURLs` (defined in a
configuration source file not provided) collects the configured live-OS
download URLs; per the spec the downloader is gated on "at least one
live-OS download URL is configured", so the non-empty URL fields are
returned, in the field order of `PreProvisioningOSDownloadURLs`. -/
def getPreProvisioningOSDownloadURLs (config : ProvisioningSpec) : List String :=
  ([config.preProvisioningOSDownloadURLs.isoURL,
    config.preProvisioningOSDownloadURLs.kernelURL,
    config.preProvisioningOSDownloadURLs.initramfsURL,
    config.preProvisioningOSDownloadURLs.rootfsURL]).filter (fun url => url ≠ "")

/-- Modelled from the spec: `isCoreOSIPAAvailable` (defined in a
configuration source file not provided) is "a boolean derived from config"
saying the CoreOS image already ships pre-built IPA assets; it is carried
as the config field `coreOSIPAAvailable`. -/
def isCoreOSIPAAvailable (config : ProvisioningSpec) : Bool :=
  config.coreOSIPAAvailable

/-! ## Init containers -/

def createInitContainerIpaDownloader (images : Images) : Container :=
  { name := "metal3-ipa-downloader",
    image := images.ipaDownloader,
    command := ["/usr/local/bin/get-resource.sh"],
    imagePullPolicy := "IfNotPresent",
    privileged := some true,
    volumeMounts := [imageVolumeMount],
    env := [],
    resources := { cpu := "10m", memory := "50Mi" } }

def createInitContainerConfigureCoreOSIPA (info : ProvisioningInfo) : Container :=
  let config := info.provConfig.spec
  let initContainer : Container :=
    { name := "metal3-configure-coreos-ipa",
      image := info.images.ironic,
      command := ["/bin/configure-coreos-ipa"],
      imagePullPolicy := "IfNotPresent",
      privileged := some true,
      volumeMounts := [sharedVolumeMount, imageVolumeMount, ironicCredentialsMount,
        ironicTlsMount],
      env := [buildEnvVar provisioningIP config, buildEnvVar provisioningInterface config,
        buildSSHKeyEnvVar info.sshKey, pullSecret],
      resources := { cpu := "10m", memory := "50Mi" } }
  { initContainer with
    env := envWithMasterMacAddresses initContainer.env info.masterMacAddresses }

def ipOptionForMachineOsDownloader (info : ProvisioningInfo) : String :=
  match info.networkStack with
  | .NetworkStackV4 => "ip=dhcp"
  | .NetworkStackV6 => "ip=dhcp6"
  | .NetworkStackDual => ""

def createInitContainerMachineOsDownloader (info : ProvisioningInfo) (imageURLs : String)
    (useLiveImages setIpOptions : Bool) : Container :=
  let command := if useLiveImages then "/usr/local/bin/get-live-images.sh"
    else "/usr/local/bin/get-resource.sh"
  let env : List EnvVar := [{ name := machineImageUrl, value := imageURLs }]
  let env := if setIpOptions then
      env ++ [{ name := ipOptions, value := ipOptionForMachineOsDownloader info }]
    else env
  { name := "metal3-machine-os-downloader",
    image := info.images.machineOsDownloader,
    command := [command],
    imagePullPolicy := "IfNotPresent",
    privileged := some true,
    volumeMounts := [imageVolumeMount],
    env := env,
    resources := { cpu := "10m", memory := "50Mi" } }

def createInitContainerStaticIpSet (images : Images) (config : ProvisioningSpec) : Container :=
  { name := "metal3-static-ip-set",
    image := images.staticIpManager,
    command := ["/set-static-ip"],
    imagePullPolicy := "IfNotPresent",
    privileged := some true,
    env := [buildEnvVar provisioningIP config, buildEnvVar provisioningInterface config],
    resources := { cpu := "10m", memory := "50Mi" } }

/-! ## Long-running containers -/

def createContainerMetal3BaremetalOperator (images : Images)
    (config : ProvisioningSpec) : Container :=
  { name := "metal3-baremetal-operator",
    image := images.baremetalOperator,
    ports := [{ name := "metrics", containerPort := 60000, hostPort := 60000 }],
    command := ["/baremetal-operator"],
    args := ["--health-addr", ":9446"],
    imagePullPolicy := "IfNotPresent",
    volumeMounts := [ironicCredentialsMount, inspectorCredentialsMount, ironicTlsMount],
    env := [getWatchNamespace config,
      { name := "POD_NAMESPACE", valueFrom := some (.fieldRef "metadata.namespace") },
      { name := "POD_NAME", valueFrom := some (.fieldRef "metadata.name") },
      { name := "OPERATOR_NAME", value := "baremetal-operator" },
      { name := ironicCertEnvVar, value := metal3TlsRootDir ++ "/ironic/tls.crt" },
      { name := ironicInsecureEnvVar, value := "true" },
      buildEnvVar deployKernelUrl config,
      buildEnvVar deployRamdiskUrl config,
      buildEnvVar ironicEndpoint config,
      buildEnvVar ironicInspectorEndpoint config,
      { name := "METAL3_AUTH_ROOT_DIR", value := metal3AuthRootDir }],
    resources := { cpu := "20m", memory := "50Mi" } }

def createContainerMetal3Dnsmasq (images : Images) (config : ProvisioningSpec)
    (macs : List String) : Container :=
  let container : Container :=
    { name := "metal3-dnsmasq",
      image := images.ironic,
      imagePullPolicy := "IfNotPresent",
      privileged := some true,
      command := ["/bin/rundnsmasq"],
      volumeMounts := [sharedVolumeMount, imageVolumeMount],
      env := [buildEnvVar httpPort config, buildEnvVar provisioningInterface config,
        buildEnvVar dhcpRange config],
      resources := { cpu := "5m", memory := "5Mi" } }
  { container with env := envWithMasterMacAddresses container.env macs }

def createContainerMetal3Mariadb (images : Images) : Container :=
  { name := "metal3-mariadb",
    image := images.ironic,
    imagePullPolicy := "IfNotPresent",
    privileged := some true,
    command := ["/bin/runmariadb"],
    volumeMounts := [sharedVolumeMount],
    env := [mariadbPassword],
    ports := [{ name := "mysql", containerPort := 3306, hostPort := 3306 }],
    resources := { cpu := "15m", memory := "80Mi" } }

def createContainerMetal3Httpd (images : Images) (config : ProvisioningSpec)
    (macs : List String) (sshKey : String) : Container :=
  let port := baremetalHttpPort
  let container : Container :=
    { name := "metal3-httpd",
      image := images.ironic,
      imagePullPolicy := "IfNotPresent",
      privileged := some true,
      command := ["/bin/runhttpd"],
      volumeMounts := [sharedVolumeMount, imageVolumeMount, ironicTlsMount,
        inspectorTlsMount],
      env := [buildEnvVar httpPort config, buildEnvVar provisioningIP config,
        buildEnvVar provisioningInterface config, buildSSHKeyEnvVar sshKey],
      ports := [{ name := httpPortName, containerPort := port, hostPort := port }],
      resources := { cpu := "5m", memory := "50Mi" } }
  { container with env := envWithMasterMacAddresses container.env macs }

def createContainerMetal3IronicConductor (images : Images) (config : ProvisioningSpec)
    (macs : List String) (sshKey : String) : Container :=
  let container : Container :=
    { name := "metal3-ironic-conductor",
      image := images.ironic,
      imagePullPolicy := "IfNotPresent",
      privileged := some true,
      command := ["/bin/runironic-conductor"],
      volumeMounts := [sharedVolumeMount, imageVolumeMount, inspectorCredentialsMount,
        rpcCredentialsMount, ironicTlsMount, inspectorTlsMount],
      env := [mariadbPassword,
        { name := ironicInsecureEnvVar, value := "true" },
        { name := inspectorInsecureEnvVar, value := "true" },
        buildEnvVar httpPort config,
        buildEnvVar provisioningIP config,
        buildEnvVar provisioningInterface config,
        buildSSHKeyEnvVar sshKey,
        setIronicHtpasswdHash htpasswdEnvVar ironicrpcSecretName,
        setIronicExternalIp externalIpEnvVar config],
      ports := [{ name := "json-rpc", containerPort := 8089, hostPort := 8089 }],
      resources := { cpu := "50m", memory := "500Mi" } }
  { container with env := envWithMasterMacAddresses container.env macs }

def createContainerMetal3IronicApi (images : Images) (config : ProvisioningSpec)
    (macs : List String) : Container :=
  let container : Container :=
    { name := "metal3-ironic-api",
      image := images.ironic,
      imagePullPolicy := "IfNotPresent",
      privileged := some true,
      command := ["/bin/runironic-api"],
      volumeMounts := [sharedVolumeMount, rpcCredentialsMount, ironicTlsMount],
      env := [mariadbPassword,
        { name := ironicInsecureEnvVar, value := "true" },
        buildEnvVar httpPort config,
        buildEnvVar provisioningIP config,
        buildEnvVar provisioningInterface config,
        setIronicHtpasswdHash htpasswdEnvVar ironicSecretName,
        setIronicExternalIp externalIpEnvVar config],
      ports := [{ name := "ironic", containerPort := 6385, hostPort := 6385 }],
      resources := { cpu := "150m", memory := "300Mi" } }
  { container with env := envWithMasterMacAddresses container.env macs }

def createContainerIronicDeployRamdiskLogs (images : Images) : Container :=
  { name := "ironic-deploy-ramdisk-logs",
    image := images.ironic,
    imagePullPolicy := "IfNotPresent",
    privileged := some true,
    command := ["/bin/runlogwatch.sh"],
    volumeMounts := [sharedVolumeMount],
    resources := { cpu := "10m", memory := "5Mi" } }

def createContainerMetal3IronicInspector (images : Images) (config : ProvisioningSpec)
    (macs : List String) : Container :=
  let container : Container :=
    { name := "metal3-ironic-inspector",
      image := images.ironic,
      imagePullPolicy := "IfNotPresent",
      privileged := some true,
      command := ["/bin/runironic-inspector"],
      volumeMounts := [sharedVolumeMount, ironicCredentialsMount, ironicTlsMount,
        inspectorTlsMount],
      env := [{ name := ironicInsecureEnvVar, value := "true" },
        buildEnvVar provisioningIP config,
        buildEnvVar provisioningInterface config,
        setIronicHtpasswdHash htpasswdEnvVar inspectorSecretName],
      ports := [{ name := "inspector", containerPort := 5050, hostPort := 5050 }],
      resources := { cpu := "40m", memory := "100Mi" } }
  { container with env := envWithMasterMacAddresses container.env macs }

def createContainerIronicInspectorRamdiskLogs (images : Images) : Container :=
  { name := "ironic-inspector-ramdisk-logs",
    image := images.ironic,
    imagePullPolicy := "IfNotPresent",
    privileged := some true,
    command := ["/bin/runlogwatch.sh"],
    volumeMounts := [sharedVolumeMount],
    resources := { cpu := "10m", memory := "5Mi" } }

def createContainerMetal3StaticIpManager (images : Images) (config : ProvisioningSpec)
    (macs : List String) : Container :=
  let container : Container :=
    { name := "metal3-static-ip-manager",
      image := images.staticIpManager,
      command := ["/refresh-static-ip"],
      imagePullPolicy := "IfNotPresent",
      privileged := some true,
      env := [buildEnvVar provisioningIP config, buildEnvVar provisioningInterface config],
      resources := { cpu := "5m", memory := "50Mi" } }
  { container with env := envWithMasterMacAddresses container.env macs }

/-! ## Cross-cutting proxy and trusted-CA injection -/

def mountsWithTrustedCA (mounts : List VolumeMount) : List VolumeMount :=
  mounts ++ [{ mountPath := "/etc/pki/ca-trust/extracted/pem",
               name := "trusted-ca",
               readOnly := true }]

def envWithProxy (proxy : Option Proxy) (envVars : List EnvVar) : List EnvVar :=
  match proxy with
  | none => envVars
  | some proxy =>
    let envVars := if proxy.status.httpProxy ≠ "" then
        envVars ++ [{ name := "HTTP_PROXY", value := proxy.status.httpProxy }]
      else envVars
    let envVars := if proxy.status.httpsProxy ≠ "" then
        envVars ++ [{ name := "HTTPS_PROXY", value := proxy.status.httpsProxy }]
      else envVars
    let envVars := if proxy.status.noProxy ≠ "" then
        envVars ++ [{ name := "NO_PROXY", value := proxy.status.noProxy }]
      else envVars
    envVars

def injectProxyAndCA (containers : List Container) (proxy : Option Proxy) : List Container :=
  containers.map (fun container =>
    { container with
      env := envWithProxy proxy container.env,
      volumeMounts := mountsWithTrustedCA container.volumeMounts })

/-! ## Container list assembly -/

def newMetal3InitContainers (info : ProvisioningInfo) : List Container :=
  let initContainers : List Container :=
    (if info.provConfig.spec.provisioningIP ≠ "" ∧
        info.provConfig.spec.provisioningNetwork ≠ ProvisioningNetwork.Disabled then
      [createInitContainerStaticIpSet info.images info.provConfig.spec]
    else [])
    ++
    (let liveURLs := getPreProvisioningOSDownloadURLs info.provConfig.spec
     if 0 < liveURLs.length then
       [createInitContainerMachineOsDownloader info (String.intercalate "," liveURLs)
          true true]
       ++
       (if info.provConfig.spec.preProvisioningOSDownloadURLs.isoURL ≠ "" then
          [createInitContainerConfigureCoreOSIPA info]
        else [])
     else [])
    ++
    (if info.provConfig.spec.provisioningOSDownloadURL ≠ "" then
      [createInitContainerMachineOsDownloader info
         info.provConfig.spec.provisioningOSDownloadURL false true]
    else [])
    ++
    (if ¬ isCoreOSIPAAvailable info.provConfig.spec then
      [createInitContainerIpaDownloader info.images]
    else [])
  injectProxyAndCA initContainers info.proxy

/-- The long-running container list of `newMetal3Containers` before the
final `injectProxyAndCA` pass (the value of the local variable
`containers` at the return statement). -/
def newMetal3ContainersPre (info : ProvisioningInfo) : List Container :=
  [createContainerMetal3BaremetalOperator info.images info.provConfig.spec,
   createContainerMetal3Mariadb info.images,
   createContainerMetal3Httpd info.images info.provConfig.spec info.masterMacAddresses
     info.sshKey,
   createContainerMetal3IronicConductor info.images info.provConfig.spec
     info.masterMacAddresses info.sshKey,
   createContainerIronicInspectorRamdiskLogs info.images,
   createContainerMetal3IronicApi info.images info.provConfig.spec info.masterMacAddresses,
   createContainerIronicDeployRamdiskLogs info.images,
   createContainerMetal3IronicInspector info.images info.provConfig.spec
     info.masterMacAddresses]
  ++
  (if info.provConfig.spec.provisioningIP ≠ "" ∧
      info.provConfig.spec.provisioningNetwork ≠ ProvisioningNetwork.Disabled then
    [createContainerMetal3StaticIpManager info.images info.provConfig.spec
       info.masterMacAddresses]
  else [])
  ++
  (if info.provConfig.spec.provisioningNetwork ≠ ProvisioningNetwork.Disabled then
    [createContainerMetal3Dnsmasq info.images info.provConfig.spec info.masterMacAddresses]
  else [])

def newMetal3Containers (info : ProvisioningInfo) : List Container :=
  injectProxyAndCA (newMetal3ContainersPre info) info.proxy

/-! ## Pod template and deployment rendering -/

/-- `corev1.PodTemplateSpec` restricted to the fields the source sets
(tolerations and the fixed volume list are rendered as the source writes
them). -/
structure PodTemplateSpec where
  annotations : List (String × String)
  labels : List (String × String)
  initContainers : List Container
  containers : List Container
  hostNetwork : Bool
  dnsPolicy : String
  priorityClassName : String
  nodeSelector : List (String × String)
  serviceAccountName : String
deriving DecidableEq, Repr

def podTemplateAnnotations : List (String × String) :=
  [("target.workload.openshift.io/management",
    "\x7b\"effect\": \"PreferredDuringScheduling\"\x7d")]

def newMetal3PodTemplateSpec (info : ProvisioningInfo)
    (labels : List (String × String)) : PodTemplateSpec :=
  { annotations := podTemplateAnnotations,
    labels := labels,
    initContainers := newMetal3InitContainers info,
    containers := newMetal3Containers info,
    hostNetwork := true,
    dnsPolicy := "ClusterFirstWithHostNet",
    priorityClassName := "system-node-critical",
    nodeSelector := [("node-role.kubernetes.io/master", "")],
    serviceAccountName := "cluster-baremetal-operator" }

/-- `metav1.LabelSelector`, reduced to its match labels (an association
list standing for the Go map). -/
structure LabelSelector where
  matchLabels : List (String × String)
deriving DecidableEq, Repr

/-- A deployment condition (`appsv1.DeploymentCondition`): its type and
whether its status is the string "True". -/
inductive DeploymentConditionType where
  | DeploymentAvailable
  | DeploymentProgressing
  | DeploymentReplicaFailure
deriving DecidableEq, Repr

/-- Condition status strings (`corev1.ConditionStatus`). -/
inductive ConditionStatus where
  | conditionTrue
  | conditionFalse
  | conditionUnknown
deriving DecidableEq, Repr

structure DeploymentCondition where
  condType : DeploymentConditionType
  status : ConditionStatus
deriving DecidableEq, Repr

/-- `appsv1.Deployment` restricted to the fields this file reads or
writes; `statusConditions` is the `Status.Conditions` list. -/
structure Deployment where
  name : String
  namespaceName : String
  annotations : List (String × String) := []
  labels : List (String × String) := []
  replicas : Nat := 1
  selector : Option LabelSelector := none
  strategyType : String := ""
  template : Option PodTemplateSpec := none
  statusConditions : List DeploymentCondition := []
deriving DecidableEq, Repr

def newMetal3Deployment (info : ProvisioningInfo) : Deployment :=
  let selector : LabelSelector :=
    { matchLabels := [("k8s-app", metal3AppName), (cboLabelName, stateService)] }
  let podSpecLabels : List (String × String) :=
    [("k8s-app", metal3AppName), (cboLabelName, stateService)]
  { name := baremetalDeploymentName,
    namespaceName := info.namespaceName,
    annotations := [( cboOwnedAnnotation, "")],
    labels := [("k8s-app", metal3AppName), (cboLabelName, stateService)],
    replicas := 1,
    selector := some selector,
    strategyType := "Recreate",
    template := some (newMetal3PodTemplateSpec info podSpecLabels) }

/-! ## Deployment reconciler and status query -/

/-- Go errors as produced in this file: an opaque underlying error plus
the three wrapping constructors corresponding to the `fmt.Errorf("...: %w")`
calls of `EnsureMetal3Deployment`. -/
inductive GoError where
  | base (msg : String)
  | wrapSetRef (e : GoError)
  | wrapApply (e : GoError)
  | wrapDelete (e : GoError)
deriving DecidableEq, Repr

/-- The result of the orchestrator `Get` call: the returned object pointer
(`none` models a nil pointer) and the returned error. -/
def GetResult := Option Deployment × Option GoError

def getMetal3DeploymentSelector (getRes : Option Deployment × Option GoError) :
    Option LabelSelector × Option GoError :=
  match getRes with
  | (some existing, none) => (existing.selector, none)
  | (_, err) => (none, err)

/-- Observable outcome of one `EnsureMetal3Deployment` call: the returned
`(updated, err)` pair plus the number of delete calls issued to the
orchestrator during the call. -/
structure EnsureOutcome where
  updated : Bool
  err : Option GoError
  deleteCalls : Nat
deriving DecidableEq, Repr

/-- `EnsureMetal3Deployment` with the orchestrator modelled as an oracle:
`setRefErr` is the `SetControllerReference` result, `applyRes` the
`(deployment, updated, err)` triple returned by
`resourceapply.ApplyDeployment`, `getRes` the `Get` answer used by
`getMetal3DeploymentSelector`, and `deleteErr` the
`DeleteMetal3Deployment` result (consulted only if the delete call is
reached). -/
def EnsureMetal3Deployment (info : ProvisioningInfo) (setRefErr : Option GoError)
    (applyRes : Option Deployment × Bool × Option GoError)
    (getRes : Option Deployment × Option GoError)
    (deleteErr : Option GoError) : EnsureOutcome :=
  let metal3Deployment := newMetal3Deployment info
  match setRefErr with
  | some e => { updated := false, err := some (.wrapSetRef e), deleteCalls := 0 }
  | none =>
    let (_deployment, updated, applyErr) := applyRes
    match applyErr with
    | some applyErr =>
      let wrapped := GoError.wrapApply applyErr
      let (selector, getSelErr) := getMetal3DeploymentSelector getRes
      if getSelErr.isSome ∨ selector = metal3Deployment.selector then
        { updated := updated, err := some wrapped, deleteCalls := 0 }
      else
        match deleteErr with
        | some deleteErr =>
          { updated := updated, err := some (.wrapDelete deleteErr), deleteCalls := 1 }
        | none =>
          -- control flow falls through the failure branch to the final
          -- `return updated, nil` of the function
          { updated := updated, err := none, deleteCalls := 1 }
    | none => { updated := updated, err := none, deleteCalls := 0 }

def getDeploymentCondition (deployment : Deployment) : DeploymentConditionType :=
  match deployment.statusConditions.find?
      (fun cond => cond.status = ConditionStatus.conditionTrue) with
  | some cond => cond.condType
  | none => DeploymentConditionType.DeploymentProgressing

/-- `deploymentRolloutTimeout = 5 * time.Minute`, in seconds. -/
def deploymentRolloutTimeout : Nat := 5 * 60

/-- `GetDeploymentState` with the orchestrator `Get` answer passed as an
oracle and `time.Since(deploymentRolloutStartTime)` passed as the elapsed
number of seconds. -/
def GetDeploymentState (getRes : Option Deployment × Option GoError)
    (elapsedSeconds : Nat) : DeploymentConditionType × Option GoError :=
  match getRes with
  | (none, err) => (DeploymentConditionType.DeploymentReplicaFailure, err)
  | (some _, some err) => (DeploymentConditionType.DeploymentReplicaFailure, some err)
  | (some existing, none) =>
    let deploymentState := getDeploymentCondition existing
    if deploymentState = DeploymentConditionType.DeploymentProgressing ∧
        deploymentRolloutTimeout ≤ elapsedSeconds then
      (DeploymentConditionType.DeploymentReplicaFailure, none)
    else
      (deploymentState, none)

/-! ## Specification-side helpers for the theorems -/

/-- The trusted-CA volume mount appended by `mountsWithTrustedCA`. -/
def trustedCAMount : VolumeMount :=
  { name := "trusted-ca", mountPath := "/etc/pki/ca-trust/extracted/pem", readOnly := true }

/-- The proxy environment-variable suffix a single injection pass appends:
empty when the proxy is absent, otherwise exactly the variables among
HTTP_PROXY, HTTPS_PROXY and NO_PROXY whose configured value is non-empty. -/
def proxyEnvVars : Option Proxy → List EnvVar
  | none => []
  | some proxy =>
    (if proxy.status.httpProxy ≠ "" then
      [{ name := "HTTP_PROXY", value := proxy.status.httpProxy }] else [])
    ++ (if proxy.status.httpsProxy ≠ "" then
      [{ name := "HTTPS_PROXY", value := proxy.status.httpsProxy }] else [])
    ++ (if proxy.status.noProxy ≠ "" then
      [{ name := "NO_PROXY", value := proxy.status.noProxy }] else [])

/-- The `PROVISIONING_MACS` environment variable appended by
`envWithMasterMacAddresses`. -/
def macsEnvVar (macs : List String) : EnvVar :=
  { name := "PROVISIONING_MACS", value := String.intercalate "," macs }

/-! ## Helper lemmas -/

theorem envWithProxy_eq_append (proxy : Option Proxy) (envVars : List EnvVar) :
    envWithProxy proxy envVars = envVars ++ proxyEnvVars proxy := by
  cases proxy with
  | none => simp [envWithProxy, proxyEnvVars]
  | some proxy =>
    simp only [envWithProxy, proxyEnvVars]
    split_ifs <;> simp

theorem mountsWithTrustedCA_eq_append (mounts : List VolumeMount) :
    mountsWithTrustedCA mounts = mounts ++ [trustedCAMount] := rfl

theorem injectProxyAndCA_eq_map (containers : List Container) (proxy : Option Proxy) :
    injectProxyAndCA containers proxy =
      containers.map (fun c =>
        { c with env := c.env ++ proxyEnvVars proxy,
                 volumeMounts := c.volumeMounts ++ [trustedCAMount] }) := by
  simp only [injectProxyAndCA, envWithProxy_eq_append, mountsWithTrustedCA_eq_append]

theorem injectProxyAndCA_names (containers : List Container) (proxy : Option Proxy) :
    (injectProxyAndCA containers proxy).map Container.name =
      containers.map Container.name := by
  simp [injectProxyAndCA, List.map_map]

theorem exists_name_iff_mem_map (l : List Container) (n : String) :
    (∃ c ∈ l, c.name = n) ↔ n ∈ l.map Container.name := by
  simp [List.mem_map]

theorem buildEnvVar_name (n : String) (config : ProvisioningSpec) :
    (buildEnvVar n config).name = n := by
  unfold buildEnvVar
  cases getMetal3DeploymentConfig n config
  case none => simp only []; split <;> rfl
  case some v => rfl

theorem setIronicExternalIp_name (n : String) (config : ProvisioningSpec) :
    (setIronicExternalIp n config).name = n := by
  unfold setIronicExternalIp
  split <;> rfl

theorem getWatchNamespace_name (config : ProvisioningSpec) :
    (getWatchNamespace config).name = "WATCH_NAMESPACE" := by
  unfold getWatchNamespace
  split <;> rfl

@[simp] theorem createInitContainerIpaDownloader_name (images : Images) :
    (createInitContainerIpaDownloader images).name = "metal3-ipa-downloader" := rfl

@[simp] theorem createInitContainerConfigureCoreOSIPA_name (info : ProvisioningInfo) :
    (createInitContainerConfigureCoreOSIPA info).name = "metal3-configure-coreos-ipa" := rfl

@[simp] theorem createInitContainerMachineOsDownloader_name (info : ProvisioningInfo)
    (imageURLs : String) (useLiveImages setIpOptions : Bool) :
    (createInitContainerMachineOsDownloader info imageURLs useLiveImages setIpOptions).name =
      "metal3-machine-os-downloader" := rfl

@[simp] theorem createInitContainerStaticIpSet_name (images : Images)
    (config : ProvisioningSpec) :
    (createInitContainerStaticIpSet images config).name = "metal3-static-ip-set" := rfl

@[simp] theorem createContainerMetal3BaremetalOperator_name (images : Images)
    (config : ProvisioningSpec) :
    (createContainerMetal3BaremetalOperator images config).name =
      "metal3-baremetal-operator" := rfl

@[simp] theorem createContainerMetal3Dnsmasq_name (images : Images)
    (config : ProvisioningSpec) (macs : List String) :
    (createContainerMetal3Dnsmasq images config macs).name = "metal3-dnsmasq" := rfl

@[simp] theorem createContainerMetal3Mariadb_name (images : Images) :
    (createContainerMetal3Mariadb images).name = "metal3-mariadb" := rfl

@[simp] theorem createContainerMetal3Httpd_name (images : Images)
    (config : ProvisioningSpec) (macs : List String) (sshKey : String) :
    (createContainerMetal3Httpd images config macs sshKey).name = "metal3-httpd" := rfl

@[simp] theorem createContainerMetal3IronicConductor_name (images : Images)
    (config : ProvisioningSpec) (macs : List String) (sshKey : String) :
    (createContainerMetal3IronicConductor images config macs sshKey).name =
      "metal3-ironic-conductor" := rfl

@[simp] theorem createContainerMetal3IronicApi_name (images : Images)
    (config : ProvisioningSpec) (macs : List String) :
    (createContainerMetal3IronicApi images config macs).name = "metal3-ironic-api" := rfl

@[simp] theorem createContainerIronicDeployRamdiskLogs_name (images : Images) :
    (createContainerIronicDeployRamdiskLogs images).name = "ironic-deploy-ramdisk-logs" := rfl

@[simp] theorem createContainerMetal3IronicInspector_name (images : Images)
    (config : ProvisioningSpec) (macs : List String) :
    (createContainerMetal3IronicInspector images config macs).name =
      "metal3-ironic-inspector" := rfl

@[simp] theorem createContainerIronicInspectorRamdiskLogs_name (images : Images) :
    (createContainerIronicInspectorRamdiskLogs images).name =
      "ironic-inspector-ramdisk-logs" := rfl

@[simp] theorem createContainerMetal3StaticIpManager_name (images : Images)
    (config : ProvisioningSpec) (macs : List String) :
    (createContainerMetal3StaticIpManager images config macs).name =
      "metal3-static-ip-manager" := rfl

/-- The name list of the rendered long-running containers, as a function
of the two inclusion conditions. -/
theorem newMetal3Containers_names (info : ProvisioningInfo) :
    (newMetal3Containers info).map Container.name =
      ["metal3-baremetal-operator", "metal3-mariadb", "metal3-httpd",
        "metal3-ironic-conductor", "ironic-inspector-ramdisk-logs", "metal3-ironic-api",
        "ironic-deploy-ramdisk-logs", "metal3-ironic-inspector"]
      ++ (if info.provConfig.spec.provisioningIP ≠ "" ∧
            info.provConfig.spec.provisioningNetwork ≠ ProvisioningNetwork.Disabled then
          ["metal3-static-ip-manager"] else [])
      ++ (if info.provConfig.spec.provisioningNetwork ≠ ProvisioningNetwork.Disabled then
          ["metal3-dnsmasq"] else []) := by
  rw [newMetal3Containers, injectProxyAndCA_names, newMetal3ContainersPre]
  split_ifs <;> simp

/-- The name list of the rendered init containers, as a function of the
four inclusion conditions. -/
theorem newMetal3InitContainers_names (info : ProvisioningInfo) :
    (newMetal3InitContainers info).map Container.name =
      (if info.provConfig.spec.provisioningIP ≠ "" ∧
          info.provConfig.spec.provisioningNetwork ≠ ProvisioningNetwork.Disabled then
        ["metal3-static-ip-set"] else [])
      ++ (if 0 < (getPreProvisioningOSDownloadURLs info.provConfig.spec).length then
          ["metal3-machine-os-downloader"]
          ++ (if info.provConfig.spec.preProvisioningOSDownloadURLs.isoURL ≠ "" then
              ["metal3-configure-coreos-ipa"] else [])
        else [])
      ++ (if info.provConfig.spec.provisioningOSDownloadURL ≠ "" then
          ["metal3-machine-os-downloader"] else [])
      ++ (if ¬ isCoreOSIPAAvailable info.provConfig.spec then
          ["metal3-ipa-downloader"] else []) := by
  simp only [newMetal3InitContainers, injectProxyAndCA_names]
  split_ifs <;> simp_all

/-! ## Concrete demonstration values used by counterexamples and witnesses -/

/-- A minimal container with no environment and no mounts. -/
def injDemoContainer : Container := { name := "demo", image := "img" }

/-- A proxy with only the HTTP proxy configured. -/
def injDemoProxy : Option Proxy :=
  some { status := { httpProxy := "http://proxy.example:3128" } }

/-! ## C2 -/

/-- C2 counterexample: `injectProxyAndCA` is not idempotent.  Re-applying
it to an already-injected singleton list (HTTP proxy configured) changes
the list again: the proxy variable and the trusted-CA mount are appended
a second time. -/
theorem injectProxyAndCA_not_idempotent :
    injectProxyAndCA (injectProxyAndCA [injDemoContainer] injDemoProxy) injDemoProxy ≠
      injectProxyAndCA [injDemoContainer] injDemoProxy := by
  decide

/-- C2 (amended): one `injectProxyAndCA` pass extends every container
uniformly, appending to its environment exactly the proxy variables among
HTTP_PROXY/HTTPS_PROXY/NO_PROXY whose configured value is non-empty (none
when the proxy is absent) and appending the trusted-CA mount; a second
pass appends the same proxy suffix and a second trusted-CA mount again
instead of leaving the list unchanged. -/
theorem injectProxyAndCA_uniform_not_idempotent (containers : List Container)
    (proxy : Option Proxy) :
    injectProxyAndCA containers proxy =
      containers.map (fun c =>
        { c with env := c.env ++ proxyEnvVars proxy,
                 volumeMounts := c.volumeMounts ++ [trustedCAMount] })
    ∧ injectProxyAndCA (injectProxyAndCA containers proxy) proxy =
      containers.map (fun c =>
        { c with env := (c.env ++ proxyEnvVars proxy) ++ proxyEnvVars proxy,
                 volumeMounts := (c.volumeMounts ++ [trustedCAMount]) ++ [trustedCAMount] }) := by
  constructor
  · exact injectProxyAndCA_eq_map containers proxy
  · simp [injectProxyAndCA_eq_map, List.map_map]

/-! ## C10 -/

/-- C10: `injectProxyAndCA` is a frame-preserving pointwise map: the
output list corresponds one-to-one, in order, with the input list; each
output container agrees with its input container on every field except
`env` and `volumeMounts`; the input `env` is a prefix of the output
`env`; and the output mounts are exactly the input mounts with one
read-only trusted-CA mount at /etc/pki/ca-trust/extracted/pem appended,
also when the proxy is absent. -/
theorem injectProxyAndCA_frame (containers : List Container) (proxy : Option Proxy) :
    (injectProxyAndCA containers proxy).length = containers.length
    ∧ List.Forall₂ (fun out inp =>
        out.name = inp.name ∧ out.image = inp.image ∧ out.command = inp.command ∧
        out.args = inp.args ∧ out.imagePullPolicy = inp.imagePullPolicy ∧
        out.privileged = inp.privileged ∧ out.ports = inp.ports ∧
        out.resources = inp.resources ∧
        List.IsPrefix inp.env out.env ∧
        out.volumeMounts = inp.volumeMounts ++ [trustedCAMount])
      (injectProxyAndCA containers proxy) containers := by
  constructor
  · simp [injectProxyAndCA]
  · rw [injectProxyAndCA_eq_map]
    induction containers with
    | nil => simp
    | cons c cs ih =>
      refine List.Forall₂.cons ?_ ih
      refine ⟨rfl, rfl, rfl, rfl, rfl, rfl, rfl, rfl, ⟨proxyEnvVars proxy, rfl⟩, rfl⟩

/-! ## C6 -/

/-- C6: for every configuration, the rendered long-running container list
contains the DHCP/DNS container metal3-dnsmasq if and only if the
provisioning network mode is not Disabled. -/
theorem newMetal3Containers_dnsmasq_iff (info : ProvisioningInfo) :
    (∃ c ∈ newMetal3Containers info, c.name = "metal3-dnsmasq") ↔
      info.provConfig.spec.provisioningNetwork ≠ ProvisioningNetwork.Disabled := by
  rw [exists_name_iff_mem_map, newMetal3Containers_names]
  split_ifs <;> simp_all

/-! ## C7 -/

/-- C7: for every configuration, the static-IP setter init-container
metal3-static-ip-set is rendered exactly when the static-IP refresher
container metal3-static-ip-manager is rendered, and both appear exactly
when a static provisioning IP is configured and the network mode is not
Disabled. -/
theorem staticIpSet_staticIpManager_together (info : ProvisioningInfo) :
    ((∃ c ∈ newMetal3InitContainers info, c.name = "metal3-static-ip-set") ↔
      (∃ c ∈ newMetal3Containers info, c.name = "metal3-static-ip-manager"))
    ∧ ((∃ c ∈ newMetal3InitContainers info, c.name = "metal3-static-ip-set") ↔
      (info.provConfig.spec.provisioningIP ≠ "" ∧
        info.provConfig.spec.provisioningNetwork ≠ ProvisioningNetwork.Disabled)) := by
  simp only [exists_name_iff_mem_map, newMetal3InitContainers_names,
    newMetal3Containers_names]
  split_ifs <;> simp_all

/-! ## More helpers: environment name lists and injection membership -/

theorem mem_injectProxyAndCA (c : Container) (l : List Container) (p : Option Proxy)
    (hc : c ∈ l) :
    { c with env := envWithProxy p c.env,
             volumeMounts := mountsWithTrustedCA c.volumeMounts } ∈ injectProxyAndCA l p := by
  simp only [injectProxyAndCA, List.mem_map]
  exact ⟨c, hc, rfl⟩

theorem name_ne_of_env_names (l : List EnvVar) (ns : List String)
    (hl : l.map EnvVar.name = ns) (n : String) (hn : n ∉ ns) :
    ∀ e ∈ l, e.name ≠ n := by
  intro e he heq
  apply hn
  rw [← hl, ← heq]
  exact List.mem_map_of_mem _ he

theorem baremetalOperator_env_names (images : Images) (config : ProvisioningSpec) :
    (createContainerMetal3BaremetalOperator images config).env.map EnvVar.name =
      ["WATCH_NAMESPACE", "POD_NAMESPACE", "POD_NAME", "OPERATOR_NAME",
        "IRONIC_CACERT_FILE", "IRONIC_INSECURE", "DEPLOY_KERNEL_URL",
        "DEPLOY_RAMDISK_URL", "IRONIC_ENDPOINT", "IRONIC_INSPECTOR_ENDPOINT",
        "METAL3_AUTH_ROOT_DIR"] := by
  simp [createContainerMetal3BaremetalOperator, buildEnvVar_name, getWatchNamespace_name,
    ironicCertEnvVar, ironicInsecureEnvVar, deployKernelUrl, deployRamdiskUrl,
    ironicEndpoint, ironicInspectorEndpoint]

theorem mariadb_env_names (images : Images) :
    (createContainerMetal3Mariadb images).env.map EnvVar.name = ["MARIADB_PASSWORD"] := rfl

theorem inspectorRamdiskLogs_env_names (images : Images) :
    (createContainerIronicInspectorRamdiskLogs images).env.map EnvVar.name = [] := rfl

theorem deployRamdiskLogs_env_names (images : Images) :
    (createContainerIronicDeployRamdiskLogs images).env.map EnvVar.name = [] := rfl

/-! ## C4 -/

/-- The C4 scenario: provisioning network Disabled, no provisioning IP, no
live-OS or single-asset OS download URLs, CoreOS IPA assets available. -/
def disabledInfo : ProvisioningInfo :=
  { provConfig :=
    { spec :=
      { provisioningNetwork := ProvisioningNetwork.Disabled,
        coreOSIPAAvailable := true } } }

/-- C4 counterexample: in the C4 scenario every init-container inclusion
rule is off, so the rendered init-container list is empty — it does not
contain exactly one entry as claimed. -/
theorem newMetal3InitContainers_disabled_not_one :
    newMetal3InitContainers disabledInfo = []
    ∧ (newMetal3InitContainers disabledInfo).length ≠ 1 := by
  decide

/-- C4 (amended): a config with mode Disabled, no static provisioning IP,
no live-OS URLs, no single-asset OS URL, and CoreOS IPA assets available
yields an empty init-container list (every inclusion rule is off,
including the IPA downloader), and a container list that excludes both
the static-IP refresher and the DHCP/DNS service. -/
theorem newMetal3InitContainers_disabled_config (info : ProvisioningInfo)
    (h1 : info.provConfig.spec.provisioningIP = "")
    (h2 : info.provConfig.spec.provisioningNetwork = ProvisioningNetwork.Disabled)
    (h3 : info.provConfig.spec.preProvisioningOSDownloadURLs = {})
    (h4 : info.provConfig.spec.provisioningOSDownloadURL = "")
    (h5 : isCoreOSIPAAvailable info.provConfig.spec = true) :
    newMetal3InitContainers info = []
    ∧ ∀ c ∈ newMetal3Containers info,
        c.name ≠ "metal3-static-ip-manager" ∧ c.name ≠ "metal3-dnsmasq" := by
  constructor
  · simp [newMetal3InitContainers, getPreProvisioningOSDownloadURLs, h1, h2, h3, h4, h5,
      injectProxyAndCA]
  · intro c hc
    have hname : c.name ∈ (newMetal3Containers info).map Container.name :=
      List.mem_map_of_mem _ hc
    rw [newMetal3Containers_names, h2] at hname
    simp only [ne_eq, not_true_eq_false, and_false, if_false, List.append_nil] at hname
    simp only [List.mem_cons, List.not_mem_nil, or_false] at hname
    rcases hname with h | h | h | h | h | h | h | h <;> simp [h]

/-- C4 witness: the amended theorem applied at the concrete C4 scenario. -/
theorem newMetal3InitContainers_disabled_config_witness :
    newMetal3InitContainers disabledInfo = []
    ∧ ∀ c ∈ newMetal3Containers disabledInfo,
        c.name ≠ "metal3-static-ip-manager" ∧ c.name ≠ "metal3-dnsmasq" :=
  newMetal3InitContainers_disabled_config disabledInfo rfl rfl rfl rfl rfl

/-! ## C5 -/

/-- The long-running containers whose construction ends with
`envWithMasterMacAddresses` in the source. -/
def macEnvContainerNames : List String :=
  ["metal3-httpd", "metal3-ironic-conductor", "metal3-ironic-api",
    "metal3-ironic-inspector", "metal3-static-ip-manager", "metal3-dnsmasq"]

/-- A configuration with the provisioning network Managed and everything
else defaulted. -/
def demoInfo : ProvisioningInfo :=
  { provConfig := { spec := { provisioningNetwork := ProvisioningNetwork.Managed } } }

/-- C5 counterexample: the mariadb container is in the pre-injection
long-running container list, and its last environment entry is not
PROVISIONING_MACS (its environment is just the database password
reference), refuting "every long-running container includes the
MAC-address list as its final environment entry". -/
theorem mariadb_lacks_provisioning_macs :
    createContainerMetal3Mariadb ({} : Images) ∈ newMetal3ContainersPre demoInfo
    ∧ ((createContainerMetal3Mariadb ({} : Images)).env.getLast?).map EnvVar.name ≠
        some "PROVISIONING_MACS" := by
  decide

/-- C5 (amended): in the pre-injection long-running container list,
exactly the containers metal3-httpd, metal3-ironic-conductor,
metal3-ironic-api, metal3-ironic-inspector, metal3-static-ip-manager and
metal3-dnsmasq carry the comma-joined master MAC list (PROVISIONING_MACS)
as their final environment entry; the remaining containers
(metal3-baremetal-operator, metal3-mariadb and the two ramdisk-log
sidecars) carry no PROVISIONING_MACS variable at all. -/
theorem newMetal3ContainersPre_macs (info : ProvisioningInfo) (c : Container)
    (hc : c ∈ newMetal3ContainersPre info) :
    (c.name ∈ macEnvContainerNames →
      c.env.getLast? = some (macsEnvVar info.masterMacAddresses))
    ∧ (c.name ∉ macEnvContainerNames →
      ∀ e ∈ c.env, e.name ≠ "PROVISIONING_MACS") := by
  rw [newMetal3ContainersPre] at hc
  simp only [List.mem_append] at hc
  have hlast : ∀ (l : List EnvVar),
      (envWithMasterMacAddresses l info.masterMacAddresses).getLast? =
        some (macsEnvVar info.masterMacAddresses) := by
    intro l
    exact List.getLast?_concat l
  rcases hc with (hc | hc) | hc
  · simp only [List.mem_cons, List.not_mem_nil, or_false] at hc
    rcases hc with h | h | h | h | h | h | h | h <;> subst h
    · exact ⟨fun hmem => absurd hmem
          (show "metal3-baremetal-operator" ∉ macEnvContainerNames by decide),
        fun _ => name_ne_of_env_names _ _ (baremetalOperator_env_names _ _) _ (by decide)⟩
    · exact ⟨fun hmem => absurd hmem
          (show "metal3-mariadb" ∉ macEnvContainerNames by decide),
        fun _ => name_ne_of_env_names _ _ (mariadb_env_names _) _ (by decide)⟩
    · exact ⟨fun _ => hlast _, fun hnot => absurd
        (show "metal3-httpd" ∈ macEnvContainerNames by decide) hnot⟩
    · exact ⟨fun _ => hlast _, fun hnot => absurd
        (show "metal3-ironic-conductor" ∈ macEnvContainerNames by decide) hnot⟩
    · exact ⟨fun hmem => absurd hmem
          (show "ironic-inspector-ramdisk-logs" ∉ macEnvContainerNames by decide),
        fun _ => name_ne_of_env_names _ _ (inspectorRamdiskLogs_env_names _) _ (by decide)⟩
    · exact ⟨fun _ => hlast _, fun hnot => absurd
        (show "metal3-ironic-api" ∈ macEnvContainerNames by decide) hnot⟩
    · exact ⟨fun hmem => absurd hmem
          (show "ironic-deploy-ramdisk-logs" ∉ macEnvContainerNames by decide),
        fun _ => name_ne_of_env_names _ _ (deployRamdiskLogs_env_names _) _ (by decide)⟩
    · exact ⟨fun _ => hlast _, fun hnot => absurd
        (show "metal3-ironic-inspector" ∈ macEnvContainerNames by decide) hnot⟩
  · split at hc
    · simp only [List.mem_cons, List.not_mem_nil, or_false] at hc
      subst hc
      exact ⟨fun _ => hlast _, fun hnot => absurd
        (show "metal3-static-ip-manager" ∈ macEnvContainerNames by decide) hnot⟩
    · exact absurd hc (List.not_mem_nil c)
  · split at hc
    · simp only [List.mem_cons, List.not_mem_nil, or_false] at hc
      subst hc
      exact ⟨fun _ => hlast _, fun hnot => absurd
        (show "metal3-dnsmasq" ∈ macEnvContainerNames by decide) hnot⟩
    · exact absurd hc (List.not_mem_nil c)

/-- C5 witness: the amended theorem applied to the dnsmasq container of a
concrete configuration. -/
theorem newMetal3ContainersPre_macs_witness :
    (createContainerMetal3Dnsmasq ({} : Images) demoInfo.provConfig.spec []).env.getLast? =
      some (macsEnvVar []) :=
  (newMetal3ContainersPre_macs demoInfo
    (createContainerMetal3Dnsmasq ({} : Images) demoInfo.provConfig.spec [])
    (by decide)).1 (by decide)

/-! ## C8 -/

/-- C8: the CoreOS-IPA configurator init-container is rendered if and
only if the live-OS URL list is non-empty and the ISO URL specifically is
set; with live URLs but no ISO URL the machine-OS downloader is rendered
while the configurator is not; and whenever the live-OS URL list is
non-empty, a rendered machine-OS downloader carries the comma-joined
live-OS URL list, in input order, as the value of its image-URL (first)
environment entry. -/
theorem newMetal3InitContainers_live_os_rules (info : ProvisioningInfo) :
    ((∃ c ∈ newMetal3InitContainers info, c.name = "metal3-configure-coreos-ipa") ↔
      (getPreProvisioningOSDownloadURLs info.provConfig.spec ≠ [] ∧
        info.provConfig.spec.preProvisioningOSDownloadURLs.isoURL ≠ ""))
    ∧ ((getPreProvisioningOSDownloadURLs info.provConfig.spec ≠ [] ∧
        info.provConfig.spec.preProvisioningOSDownloadURLs.isoURL = "") →
      ((∃ c ∈ newMetal3InitContainers info, c.name = "metal3-machine-os-downloader")
        ∧ ∀ c ∈ newMetal3InitContainers info, c.name ≠ "metal3-configure-coreos-ipa"))
    ∧ (getPreProvisioningOSDownloadURLs info.provConfig.spec ≠ [] →
      ∃ c ∈ newMetal3InitContainers info,
        c.name = "metal3-machine-os-downloader" ∧
        c.env.head? =
          some { name := machineImageUrl,
                 value := String.intercalate ","
                           (getPreProvisioningOSDownloadURLs info.provConfig.spec) }) := by
  have hiff : (∃ c ∈ newMetal3InitContainers info,
      c.name = "metal3-configure-coreos-ipa") ↔
      (getPreProvisioningOSDownloadURLs info.provConfig.spec ≠ [] ∧
        info.provConfig.spec.preProvisioningOSDownloadURLs.isoURL ≠ "") := by
    rw [exists_name_iff_mem_map, newMetal3InitContainers_names]
    split_ifs <;> simp_all [List.length_pos]
  have hdl : getPreProvisioningOSDownloadURLs info.provConfig.spec ≠ [] →
      ∃ c ∈ newMetal3InitContainers info,
        c.name = "metal3-machine-os-downloader" ∧
        c.env.head? =
          some { name := machineImageUrl,
                 value := String.intercalate ","
                           (getPreProvisioningOSDownloadURLs info.provConfig.spec) } := by
    intro h
    have hlen : 0 < (getPreProvisioningOSDownloadURLs info.provConfig.spec).length :=
      List.length_pos.mpr h
    refine ⟨_, mem_injectProxyAndCA
      (createInitContainerMachineOsDownloader info
        (String.intercalate "," (getPreProvisioningOSDownloadURLs info.provConfig.spec))
        true true) _ info.proxy ?_, rfl, ?_⟩
    · simp [hlen]
    · show (envWithProxy info.proxy _).head? = _
      rw [envWithProxy_eq_append]
      rfl
  refine ⟨hiff, fun h => ⟨?_, ?_⟩, hdl⟩
  · obtain ⟨c, hc, hname, _⟩ := hdl h.1
    exact ⟨c, hc, hname⟩
  · intro c hc hname
    exact (hiff.not.mpr (fun hr => hr.2 h.2)) ⟨c, hc, hname⟩

/-- A configuration with two live-OS URLs (kernel and initramfs) and no
ISO URL. -/
def liveUrlsInfo : ProvisioningInfo :=
  { provConfig :=
    { spec :=
      { provisioningNetwork := ProvisioningNetwork.Managed,
        preProvisioningOSDownloadURLs :=
          { kernelURL := "http://assets/kernel",
            initramfsURL := "http://assets/initramfs" } } } }

/-- C8 witness: with kernel and initramfs live URLs and no ISO URL, the
downloader is rendered with the comma-joined URL value and the
configurator is absent. -/
theorem newMetal3InitContainers_live_os_rules_witness :
    (∃ c ∈ newMetal3InitContainers liveUrlsInfo,
        c.name = "metal3-machine-os-downloader" ∧
        c.env.head? =
          some { name := machineImageUrl,
                 value := "http://assets/kernel,http://assets/initramfs" })
    ∧ ∀ c ∈ newMetal3InitContainers liveUrlsInfo,
        c.name ≠ "metal3-configure-coreos-ipa" := by
  have h := newMetal3InitContainers_live_os_rules liveUrlsInfo
  exact ⟨h.2.2 (by decide), (h.2.1 ⟨by decide, rfl⟩).2⟩

/-! ## C9 -/

/-- C9: whenever the orchestrator get fails or yields no object, the
status query reports ReplicaFailure together with the get error,
independently of the deployment conditions and of the elapsed rollout
time. -/
theorem GetDeploymentState_get_failure (getRes : Option Deployment × Option GoError)
    (elapsedSeconds : Nat) (h : getRes.2.isSome ∨ getRes.1 = none) :
    GetDeploymentState getRes elapsedSeconds =
      (DeploymentConditionType.DeploymentReplicaFailure, getRes.2) := by
  obtain ⟨o, e⟩ := getRes
  cases o <;> cases e <;> simp_all [GetDeploymentState]

/-- C9 witness: the theorem applied to a failed get. -/
theorem GetDeploymentState_get_failure_witness :
    GetDeploymentState (none, some (GoError.base "connection refused")) 42 =
      (DeploymentConditionType.DeploymentReplicaFailure,
        some (GoError.base "connection refused")) :=
  GetDeploymentState_get_failure (none, some (GoError.base "connection refused")) 42
    (Or.inl rfl)

/-! ## C3 -/

/-- A fetched deployment whose first true condition is Progressing. -/
def progressingDeployment : Deployment :=
  { name := "metal3",
    namespaceName := "openshift-machine-api",
    statusConditions :=
      [{ condType := DeploymentConditionType.DeploymentProgressing,
         status := ConditionStatus.conditionTrue }] }

/-- C3 counterexample: with a Progressing condition and an elapsed time of
exactly 5 minutes (300 seconds, which does not exceed the timeout), the
reported state is already overridden to ReplicaFailure — the override
fires at `timeout ≤ elapsed`, not only when the elapsed time strictly
exceeds the timeout. -/
theorem GetDeploymentState_overrides_at_exact_timeout :
    GetDeploymentState (some progressingDeployment, none) 300 =
      (DeploymentConditionType.DeploymentReplicaFailure, none)
    ∧ ¬ (300 > 5 * 60) := by
  decide

/-- C3 (amended): given a fetched deployment whose computed condition is
Progressing, the reported state is ReplicaFailure exactly when the
elapsed time since the rollout start is at least the 5-minute timeout
(300 seconds); hence strictly more than 5 minutes reports ReplicaFailure
and 4 minutes 59 seconds still reports Progressing. -/
theorem GetDeploymentState_progressing_timeout (d : Deployment) (elapsedSeconds : Nat)
    (h : getDeploymentCondition d = DeploymentConditionType.DeploymentProgressing) :
    ((GetDeploymentState (some d, none) elapsedSeconds).1 =
        DeploymentConditionType.DeploymentReplicaFailure ↔ 5 * 60 ≤ elapsedSeconds)
    ∧ (GetDeploymentState (some d, none) elapsedSeconds).2 = none := by
  simp only [GetDeploymentState, h, deploymentRolloutTimeout]
  split_ifs with hle <;> simp_all

/-- C3 witness: the amended theorem applied at 4 minutes 59 seconds. -/
theorem GetDeploymentState_progressing_timeout_witness :
    ((GetDeploymentState (some progressingDeployment, none) 299).1 =
        DeploymentConditionType.DeploymentReplicaFailure ↔ 5 * 60 ≤ 299)
    ∧ (GetDeploymentState (some progressingDeployment, none) 299).2 = none :=
  GetDeploymentState_progressing_timeout progressingDeployment 299 (by decide)

/-! ## C1 -/

/-- A reconcile input with an empty default configuration. -/
def ensureDemoInfo : ProvisioningInfo :=
  { provConfig := { spec := { provisioningNetwork := ProvisioningNetwork.Managed } } }

/-- An existing deployment carrying an outdated pod selector, different
from the selector `newMetal3Deployment` renders. -/
def oldSelectorDeployment : Deployment :=
  { name := "metal3",
    namespaceName := "openshift-machine-api",
    selector := some { matchLabels := [("k8s-app", "metal3-old")] } }

/-- C1 counterexample: when the apply fails, the selector fetch succeeds,
the fetched selector differs from the rendered one, and the delete
succeeds, `EnsureMetal3Deployment` issues the delete call but then falls
through to `return updated, nil` — it returns a nil error instead of the
original apply error. -/
theorem EnsureMetal3Deployment_drops_apply_error :
    EnsureMetal3Deployment ensureDemoInfo none
        (none, false, some (GoError.base "apply failed"))
        (some oldSelectorDeployment, none) none =
      { updated := false, err := none, deleteCalls := 1 }
    ∧ (EnsureMetal3Deployment ensureDemoInfo none
        (none, false, some (GoError.base "apply failed"))
        (some oldSelectorDeployment, none) none).err ≠
      some (GoError.wrapApply (GoError.base "apply failed")) := by
  constructor
  · rfl
  · decide

/-- C1 (amended): on an apply failure, if the selector fetch fails or the
fetched selector equals the newly rendered selector, no delete call is
issued and the wrapped original apply error is returned; if the fetch
succeeds and the selector differs, exactly one delete call is issued, and
the call then returns the wrapped delete error when the delete fails, but
a nil error (discarding the original apply error) when the delete
succeeds. -/
theorem EnsureMetal3Deployment_selector_conflict (info : ProvisioningInfo)
    (applyDep : Option Deployment) (updated : Bool) (applyErr : GoError)
    (getRes : Option Deployment × Option GoError) (deleteErr : Option GoError) :
    (((getMetal3DeploymentSelector getRes).2.isSome ∨
        (getMetal3DeploymentSelector getRes).1 = (newMetal3Deployment info).selector) →
      EnsureMetal3Deployment info none (applyDep, updated, some applyErr) getRes deleteErr =
        { updated := updated, err := some (GoError.wrapApply applyErr), deleteCalls := 0 })
    ∧ (((getMetal3DeploymentSelector getRes).2 = none ∧
        (getMetal3DeploymentSelector getRes).1 ≠ (newMetal3Deployment info).selector) →
      EnsureMetal3Deployment info none (applyDep, updated, some applyErr) getRes deleteErr =
        { updated := updated,
          err := match deleteErr with
                 | some e => some (GoError.wrapDelete e)
                 | none => none,
          deleteCalls := 1 }) := by
  constructor
  · intro h
    simp only [EnsureMetal3Deployment]
    rw [if_pos h]
  · intro h
    simp only [EnsureMetal3Deployment]
    rw [if_neg]
    · cases deleteErr <;> rfl
    · simp [h.1, h.2]

/-- C1 witness: the amended theorem applied to a concrete failed apply
with a differing fetched selector and a failing delete — exactly one
delete call, and the wrapped delete error is returned. -/
theorem EnsureMetal3Deployment_selector_conflict_witness :
    EnsureMetal3Deployment ensureDemoInfo none
        (none, true, some (GoError.base "selector is immutable"))
        (some oldSelectorDeployment, none) (some (GoError.base "delete refused")) =
      { updated := true,
        err := some (GoError.wrapDelete (GoError.base "delete refused")),
        deleteCalls := 1 } :=
  (EnsureMetal3Deployment_selector_conflict ensureDemoInfo none true
    (GoError.base "selector is immutable") (some oldSelectorDeployment, none)
    (some (GoError.base "delete refused"))).2 ⟨rfl, by decide⟩
